import Mathlib

/-
Verification of the olclient OpenLibrary API wrapper (src/olclient/openlibrary.py).

The Python module is shallowly embedded: JSON values become an inductive type,
Python dict/list/string primitives become total Lean functions that return
`Except String` results whose error strings name the Python exception class
raised on that path (`"KeyError"`, `"TypeError"`, `"IndexError"`,
`"AttributeError"`, `"ValueError: ..."`).  Network responses are passed in as
explicit arguments: an `Option Json` models the parsed body (`none` means the
body was not parseable JSON, i.e. `response.json()` raised `ValueError`), and
the author-autocomplete candidate list is passed to the functions that would
fetch it.
-/

/-- A JSON value as produced by `response.json()`.  `null` also stands for
Python `None`. -/
inductive Json where
  | str (s : String)
  | num (n : Int)
  | bool (b : Bool)
  | null
  | arr (elems : List Json)
  | obj (fields : List (String × Json))
deriving Repr

/-- Python truthiness of a JSON value: empty containers, empty strings, zero,
`False` and `None` are falsy. -/
def pyTruthy : Json → Bool
  | .str s => !(s == "")
  | .num n => !(n == 0)
  | .bool b => b
  | .null => false
  | .arr l => !l.isEmpty
  | .obj l => !l.isEmpty

/-- First binding of key `k` in an association list (Python dicts have unique
keys, so this is dict lookup). -/
def lookupKey (l : List (String × Json)) (k : String) : Option Json :=
  match l.find? (fun p => p.1 == k) with
  | some p => some p.2
  | none => none

/-- Dict assignment `d[k] = v`: replaces the binding in place if `k` is
present, otherwise appends it. -/
def setKey : List (String × Json) → String → Json → List (String × Json)
  | [], k, v => [(k, v)]
  | p :: ps, k, v => if p.1 == k then (k, v) :: ps else p :: setKey ps k v

/-- Remove every binding of key `k` (Python `dict.pop` removal). -/
def removeKey (l : List (String × Json)) (k : String) : List (String × Json) :=
  l.filter (fun p => !(p.1 == k))

/-- Does the character list `needle` occur contiguously inside `hay`?
Python substring membership `needle in hay`. -/
def isInfixChars (needle : List Char) : List Char → Bool
  | [] => needle.isEmpty
  | c :: cs => leadsWith needle (c :: cs) || isInfixChars needle cs
where
  /-- Does the first list lead (start) the second one? -/
  leadsWith : List Char → List Char → Bool
    | [], _ => true
    | _ :: _, [] => false
    | a :: as, b :: bs => a == b && leadsWith as bs

/-- Python `key in j`: key membership for dicts, element membership for lists,
substring test for strings; `TypeError` for non-containers. -/
def pyContains (j : Json) (k : String) : Except String Bool :=
  match j with
  | .obj l => .ok ((lookupKey l k).isSome)
  | .arr l => .ok (l.any (fun e => match e with | .str s => s == k | _ => false))
  | .str s => .ok (isInfixChars k.data s.data)
  | _ => .error "TypeError"

/-- Python `j[k]` for a string key: dict lookup (`KeyError` when absent);
lists and strings want integer indices, everything else is unsubscriptable
(`TypeError`). -/
def pyGetItem (j : Json) (k : String) : Except String Json :=
  match j with
  | .obj l =>
    match lookupKey l k with
    | some v => .ok v
    | none => .error "KeyError"
  | _ => .error "TypeError"

/-- Python `j.get(k, default)`: only dicts have `.get` (`AttributeError`
otherwise). -/
def pyDictGet (j : Json) (k : String) (dflt : Json) : Except String Json :=
  match j with
  | .obj l => .ok ((lookupKey l k).getD dflt)
  | _ => .error "AttributeError"

/-- Python `v[0]`: first element of a list (`IndexError` when empty), first
character of a string (`IndexError` when empty), `KeyError` for dicts (JSON
object keys are strings, never `0`), `TypeError` otherwise. -/
def index0 : Json → Except String Json
  | .arr [] => .error "IndexError"
  | .arr (x :: _) => .ok x
  | .str s =>
    match s.data with
    | [] => .error "IndexError"
    | c :: _ => .ok (.str (String.mk [c]))
  | .obj _ => .error "KeyError"
  | _ => .error "TypeError"

/-- ASCII lowercasing of one character (Python `str.lower` on the ASCII
inputs this client handles). -/
def lowerChar (c : Char) : Char :=
  if 'A' ≤ c ∧ c ≤ 'Z' then Char.ofNat (c.toNat + 32) else c

/-- Python `str.lower()`. -/
def pyLower (s : String) : String :=
  String.mk (s.data.map lowerChar)

/-- Whitespace characters stripped by Python `str.strip()`. -/
def isSpaceChar (c : Char) : Bool :=
  c == ' ' || c == '\t' || c == '\n' || c == '\r' || c == '\x0b' || c == '\x0c'

/-- Python `str.strip()`: drop leading and trailing whitespace. -/
def pyStrip (s : String) : String :=
  String.mk (((s.data.dropWhile isSpaceChar).reverse.dropWhile isSpaceChar).reverse)

/-- Split a character list on `'/'` (Python `str.split('/')`); the result is
always nonempty. -/
def splitSlash : List Char → List (List Char)
  | [] => [[]]
  | c :: cs =>
    let r := splitSlash cs
    if c == '/' then [] :: r
    else
      match r with
      | [] => [[c]]
      | x :: xs => (c :: x) :: xs

/-- Python `s.split('/')[-1]`: the last slash-separated segment. -/
def lastSegment (s : String) : String :=
  String.mk ((splitSlash s.data).getLastD [])

/-- The character class `[0-9a-zA-Z]` of the olid regex. -/
def isAlnumChar (c : Char) : Bool :=
  ('0' ≤ c && c ≤ '9') || ('a' ≤ c && c ≤ 'z') || ('A' ≤ c && c ≤ 'Z')

/-- Attempt to match `pat` followed by a nonempty alphanumeric run at the head
of `s`; on success return that maximal run (the regex group
`[/]type[/]([0-9a-zA-Z]+)` anchored at the head). -/
def matchIdAt (pat s : List Char) : Option (List Char) :=
  if isInfixChars.leadsWith pat s then
    let run := (s.drop pat.length).takeWhile isAlnumChar
    if run.isEmpty then none else some run
  else none

/-- `re.search` of the olid pattern: try `matchIdAt` at every suffix, leftmost
match wins. -/
def searchId (pat : List Char) : List Char → Option (List Char)
  | [] => none
  | c :: cs =>
    match matchIdAt pat (c :: cs) with
    | some r => some r
    | none => searchId pat cs

namespace OpenLibrary

/-- `OpenLibrary.VALID_IDS`. -/
def VALID_IDS : List String := ["isbn_10", "isbn_13", "lccn"]

/-- `BACKOFF_KWARGS['max_tries']`. -/
def BACKOFF_MAX_TRIES : Nat := 5

/-- `OpenLibrary._extract_olid_from_url(url, url_type)`: search `url` for the
pattern `[/]url_type[/]([0-9a-zA-Z]+)` and return the captured group, or
`none` when there is no match (the `AttributeError` branch).  The embedding
treats `url_type` literally, which agrees with the source regex exactly when
the type label is alphanumeric — as it is at every call site (`"books"`,
`"authors"`, `"works"`). -/
def _extract_olid_from_url (url url_type : String) : Option String :=
  (searchId ('/' :: (url_type.data ++ ['/'])) url.data).map String.mk

/-- One candidate record from the author-autocomplete endpoint (`{name, key}`). -/
structure AuthorRecord where
  name : String
  key : String
deriving Repr, DecidableEq

/-- `OpenLibrary.get_matching_authors_by_name(name, limit)`: an empty (falsy)
name short-circuits to `[]` without a network call; otherwise the parsed
response list `fetched` is returned as-is. -/
def get_matching_authors_by_name (name : String) (fetched : List AuthorRecord) :
    List AuthorRecord :=
  if name == "" then [] else fetched

/-- `OpenLibrary.get_matching_authors_olid(name)`: scan the candidates in
order and return `key.split('/')[-1]` of the first candidate whose
lowercased, stripped name equals the lowercased, stripped query. -/
def get_matching_authors_olid (name : String) (fetched : List AuthorRecord) :
    Option String :=
  let authors := get_matching_authors_by_name name fetched
  let _name := pyStrip (pyLower name)
  match authors.find? (fun a => _name == pyStrip (pyLower a.name)) with
  | some a => some (lastSegment a.key)
  | none => none

/-- Modelled from the spec: the `Author` domain object from `olclient/book.py`
(not under src/) — "Author: name, optional internal identifier (olid)". -/
structure Author where
  name : String
  olid : Option String := none
deriving Repr, DecidableEq

/-- Modelled from the spec: the `Book` domain object from `olclient/book.py`
(not under src/) — "Book: title, subtitle, publisher(s), publish date, list of
Author, mapping of identifier-kind → list of identifier-value".  Fields keep
their raw JSON values; `extra` is the bucket for unrecognized keyword fields
(spec §9: loose keyword-argument constructors). -/
structure Book where
  title : Json := Json.null
  subtitle : Json := Json.null
  publisher : Json := Json.null
  publish_date : Json := Json.null
  authors : List Author := []
  identifiers : Json := Json.obj []
  extra : List (String × Json) := []

/-- Modelled from the spec: `Book.primary_author` (from `olclient/book.py`,
not under src/) — the primary author is the first listed Author ("Resolve the
primary author's display name", spec §4.3). -/
def Book.primary_author (b : Book) : Option Author :=
  b.authors.head?

/-- Modelled from the spec: the `Book(**edition)` constructor call — named
fields are picked out of the keyword dictionary, everything else lands in the
`extra` bucket; the already-converted author list is passed alongside. -/
def mkBook (fields : List (String × Json)) (authors : List Author) : Book :=
  { title := (lookupKey fields "title").getD Json.null
    subtitle := (lookupKey fields "subtitle").getD Json.null
    publisher := (lookupKey fields "publisher").getD Json.null
    publish_date := (lookupKey fields "publish_date").getD Json.null
    authors := authors
    identifiers := (lookupKey fields "identifiers").getD (Json.obj [])
    extra := fields.filter (fun p =>
      !(p.1 == "title" || p.1 == "subtitle" || p.1 == "publisher" ||
        p.1 == "publish_date" || p.1 == "identifiers")) }

/-- The inner loop of `create_book.get_primary_identifier`: walk the kind list
and, at the first kind contained in the identifier mapping, evaluate
`book.identifiers[valid_key][0]` (which may itself raise) and stop. -/
def primary_id_scan : List String → Json → Except String (Option (String × Json))
  | [], _ => .ok none
  | k :: ks, ids =>
    match pyContains ids k with
    | .error e => .error e
    | .ok true =>
      match pyGetItem ids k with
      | .error e => .error e
      | .ok v =>
        match index0 v with
        | .error e => .error e
        | .ok x => .ok (some (k, x))
    | .ok false => primary_id_scan ks ids

/-- `create_book.get_primary_identifier()`: after the scan, the guard
`if not (id_name and id_value)` raises `ValueError` both when no kind was
found and when the found value is falsy. -/
def get_primary_identifier (book : Book) : Except String (String × Json) :=
  match primary_id_scan VALID_IDS book.identifiers with
  | .error e => .error e
  | .ok none => .error "ValueError: ISBN10/13 or LCCN required"
  | .ok (some (k, x)) =>
    if pyTruthy x then .ok (k, x)
    else .error "ValueError: ISBN10/13 or LCCN required"

/-- Outcome of `_create_book`: either the payload returned in debug mode
(no POST made), or the record of the POST to `/books/add` together with the
olid extracted from the response URL. -/
inductive CreateResult where
  | payload (data : List (String × Json))
  | created (posted : List (String × Json)) (olid : Option String)
deriving Repr

/-- Did the call POST to the creation endpoint? -/
def madeNetworkPost : Except String CreateResult → Bool
  | .ok (.created _ _) => true
  | _ => false

/-- `OpenLibrary._create_book(...)`: validate `id_name`, assemble the payload
dict in source order, and either return it (debug) or POST it;
`post_response_url` is the final URL of the POST response, from which the new
olid is extracted. -/
def _create_book (title author_name author_key publish_date publisher : Json)
    (id_name : String) (id_value : Json) (post_response_url : String)
    (debug : Bool) : Except String CreateResult :=
  if VALID_IDS.contains id_name then
    let data : List (String × Json) :=
      [("title", title),
       ("author_name", author_name),
       ("author_key", author_key),
       ("publish_date", publish_date),
       ("publisher", publisher),
       ("id_name", .str id_name),
       ("id_value", id_value),
       ("_save", .str "")]
    if debug then .ok (.payload data)
    else .ok (.created data (_extract_olid_from_url post_response_url "books"))
  else .error "ValueError: invalid id_name"

/-- `OpenLibrary.create_book(book, debug)`: choose the primary identifier,
resolve the author name from the primary author (empty string when there is
none), look up an existing author olid via the autocomplete (whose parsed
response is the `candidates` argument), pick the author key (existing olid or
the `__new__` sentinel), and delegate to `_create_book`. -/
def create_book (book : Book) (candidates : List AuthorRecord)
    (post_response_url : String) (debug : Bool) : Except String CreateResult :=
  match get_primary_identifier book with
  | .error e => .error e
  | .ok (id_name, id_value) =>
    let author_name :=
      match book.primary_author with
      | some a => a.name
      | none => ""
    let author_olid := get_matching_authors_olid author_name candidates
    let author_key :=
      match author_olid with
      | some s => if s == "" then "__new__" else "/authors/" ++ s
      | none => "__new__"
    _create_book book.title (.str author_name) (.str author_key)
      book.publish_date book.publisher id_name id_value post_response_url debug

/-- Convert the popped `authors` JSON array of `get_book_by_isbn`: each entry
must be a dict; `Author(name=author['name'], olid=extract(author['url'],
"authors"))`.  A non-string name is rejected by the (spec-modelled, typed)
Author constructor; a non-string url makes `re.search` raise `TypeError`. -/
def authorsFromJson : List Json → Except String (List Author)
  | [] => .ok []
  | a :: rest =>
    match pyGetItem a "name" with
    | .error e => .error e
    | .ok nameVal =>
      match pyGetItem a "url" with
      | .error e => .error e
      | .ok urlVal =>
        match nameVal, urlVal with
        | .str n, .str u =>
          match authorsFromJson rest with
          | .error e => .error e
          | .ok tl => .ok ({ name := n, olid := _extract_olid_from_url u "authors" } :: tl)
        | _, _ => .error "TypeError"

/-- The list a Python `for` loop iterates over: list elements; dicts iterate
their keys; strings iterate their characters; everything else is not
iterable. -/
def pyIterate : Json → Except String (List Json)
  | .arr l => .ok l
  | .obj l => .ok (l.map (fun p => .str p.1))
  | .str s => .ok (s.data.map (fun c => .str (String.mk [c])))
  | _ => .error "TypeError"

/-- `OpenLibrary.get_book_by_isbn(isbn)` after the GET: `response` is the
parsed body (`none` when `response.json()` raised `ValueError`, which is
caught and returns `None`).  When the `ISBN:<isbn>` key is present, the
edition dict is rewritten — `print(edition['key'])`, then
`edition['identifiers']['olid'] = [extract(edition.pop('key'), "books")]`,
then the popped `authors` array is converted — and passed to `Book(**edition)`. -/
def get_book_by_isbn (isbn : String) (response : Option Json) :
    Except String (Option Book) :=
  match response with
  | none => .ok none
  | some result =>
    match pyContains result ("ISBN:" ++ isbn) with
    | .error e => .error e
    | .ok false => .ok none
    | .ok true =>
      match pyGetItem result ("ISBN:" ++ isbn) with
      | .error e => .error e
      | .ok edition =>
        match pyGetItem edition "key" with
        | .error e => .error e
        | .ok keyVal =>
          match edition with
          | .obj ed =>
            let ed1 := removeKey ed "key"
            match keyVal with
            | .str keyUrl =>
              let olid := _extract_olid_from_url keyUrl "books"
              let olidJson : Json :=
                match olid with
                | some s => .str s
                | none => .null
              match lookupKey ed1 "identifiers" with
              | none => .error "KeyError"
              | some idsVal =>
                match idsVal with
                | .obj ids =>
                  let ed2 := setKey ed1 "identifiers"
                    (.obj (setKey ids "olid" (.arr [olidJson])))
                  let authorsVal := (lookupKey ed2 "authors").getD (.arr [])
                  let ed3 := removeKey ed2 "authors"
                  match pyIterate authorsVal with
                  | .error e => .error e
                  | .ok items =>
                    match authorsFromJson items with
                    | .error e => .error e
                    | .ok authors => .ok (some (mkBook ed3 authors))
                | _ => .error "TypeError"
            | _ => .error "TypeError"
          | _ => .error "TypeError"

/-- `OpenLibrary.get_olid_by_isbn(isbn)` after the GET: `none` response body
means unparseable JSON (caught, returns `None`); a present `ISBN:<isbn>` entry
has its `info_url` field (defaulting to `''`) fed to the extractor. -/
def get_olid_by_isbn (isbn : String) (response : Option Json) :
    Except String (Option String) :=
  match response with
  | none => .ok none
  | some results =>
    match pyContains results ("ISBN:" ++ isbn) with
    | .error e => .error e
    | .ok false => .ok none
    | .ok true =>
      match pyGetItem results ("ISBN:" ++ isbn) with
      | .error e => .error e
      | .ok entry =>
        match pyDictGet entry "info_url" (.str "") with
        | .error e => .error e
        | .ok urlVal =>
          match urlVal with
          | .str u => .ok (_extract_olid_from_url u "books")
          | _ => .error "TypeError"

end OpenLibrary

namespace Results

/-- The keyword arguments of `Results.Document.__init__`, with the source's
default values (`**kwargs` beyond these are accepted and dropped).  The falsy
string defaults of `author_name` (`u""`) behave exactly like an absent list
under the `x or []` guards, so absence is modelled as `none`. -/
structure DocInput where
  key : String
  title : Json := Json.str ""
  subtitle : Json := Json.null
  subject : Option (List Json) := none
  author_name : Option (List String) := none
  author_key : Option (List String) := none
  edition_key : Json := Json.null
  language : Json := Json.str ""
  publisher : Json := Json.null
  publish_date : Json := Json.null
  publish_place : Json := Json.null
  first_publish_year : Json := Json.null
  isbns : Option (List Json) := none
  lccn : Option (List Json) := none
  oclc : Option (List Json) := none
  id_goodreads : Option (List Json) := none
  id_librarything : Option (List Json) := none

/-- The state a constructed `Results.Document` carries. -/
structure Document where
  title : Json
  subtitle : Json
  subjects : Option (List Json)
  authors : List OpenLibrary.Author
  publishers : Json
  publish_dates : Json
  publish_places : Json
  first_publish_year : Json
  edition_olids : Json
  language : Json
  identifiers : List (String × List Json)

/-- `Results.Document.__init__`: the author list is
`zip(author_name or [], author_key or [])` mapped through `Author`, and the
identifier mapping gets `olid: [work_olid]` where `work_olid` is extracted
from `key` with type `"works"` (possibly `None`, kept as `null`). -/
def mkDocument (d : DocInput) : Document :=
  let work_olid := OpenLibrary._extract_olid_from_url d.key "works"
  let work_olid_json : Json :=
    match work_olid with
    | some s => .str s
    | none => .null
  { title := d.title
    subtitle := d.subtitle
    subjects := d.subject
    authors := List.zipWith (fun n k => { name := n, olid := some k })
      (d.author_name.getD []) (d.author_key.getD [])
    publishers := d.publisher
    publish_dates := d.publish_date
    publish_places := d.publish_place
    first_publish_year := d.first_publish_year
    edition_olids := d.edition_key
    language := d.language
    identifiers :=
      [("olid", [work_olid_json]),
       ("isbns", d.isbns.getD []),
       ("oclc", d.oclc.getD []),
       ("lccn", d.lccn.getD []),
       ("goodreads", d.id_goodreads.getD []),
       ("librarything", d.id_librarything.getD [])] }

/-- The state a constructed `Results` container carries. -/
structure Container where
  start : Json
  num_found : Json
  docs : List Document

/-- `Results.__init__(start=0, num_found=0, docs=None, **kwargs)`: the list
comprehension `[self.Document(**doc) for doc in docs]` iterates `docs`
unconditionally, so the default `docs=None` raises `TypeError` (`NoneType` is
not iterable) instead of producing an empty document list. -/
def init (start num_found : Json) (docs : Option (List DocInput)) :
    Except String Container :=
  match docs with
  | none => .error "TypeError"
  | some ds => .ok { start := start, num_found := num_found, docs := ds.map mkDocument }

end Results

/-- Modelled from the spec: the retry combinator the `backoff` library (an
external dependency, not under src/) applies via
`@backoff.on_exception(wait_gen=expo, exception=RequestException,
max_tries=5, on_giveup=err)` around every network call (spec §4.1 and §9):
invoke the operation; on a retriable failure retry (with exponentially
increasing delay, irrelevant to the result) until `maxTries` total attempts
have been made; on final failure invoke the give-up callback once and
propagate the last error.  `op i` is the outcome of attempt `i` (0-based);
the result triple is (overall outcome, number of invocations of `op`, number
of invocations of the give-up callback), with outcome `none` only in the
degenerate `maxTries = 0` case. -/
def retryRun {E A : Type} (op : Nat → Except E A) : Nat → Nat → Option (Except E A) × Nat × Nat
  | _, 0 => (none, 0, 0)
  | i, n + 1 =>
    match op i with
    | .ok a => (some (.ok a), 1, 0)
    | .error e =>
      if n = 0 then (some (.error e), 1, 1)
      else
        let r := retryRun op (i + 1) n
        (r.1, r.2.1 + 1, r.2.2)

/-- Modelled from the spec: run an operation under the retry policy with a
bound of `maxTries` total attempts, starting from attempt 0. -/
def retry {E A : Type} (maxTries : Nat) (op : Nat → Except E A) :
    Option (Except E A) × Nat × Nat :=
  retryRun op 0 maxTries

/-- The edition object of the stated `get_book_by_isbn` test response for isbn
`"123"`: `{"key": "/books/OL1M", "authors": [{"name":"A","url":"/authors/OL2A"}],
"title":"X"}`. -/
def c2_edition : List (String × Json) :=
  [("key", .str "/books/OL1M"),
   ("authors", .arr [.obj [("name", .str "A"), ("url", .str "/authors/OL2A")]]),
   ("title", .str "X")]

/-- The stated response body `{"ISBN:123": {...}}` around `c2_edition`. -/
def c2_body : Json := .obj [("ISBN:123", .obj c2_edition)]

/-- The same response body with an (empty) `identifiers` object added to the
edition, as the real books API emits with `jscmd=data`. -/
def c2_body_with_identifiers : Json :=
  .obj [("ISBN:123", .obj (c2_edition ++ [("identifiers", .obj [])]))]

/-- The Book the isbn mapping produces from `c2_body_with_identifiers`. -/
def c2_expected_book : OpenLibrary.Book :=
  { title := .str "X"
    authors := [{ name := "A", olid := some "OL2A" }]
    identifiers := .obj [("olid", .arr [.str "OL1M"])] }

/-- A Book with title `"T"`, ISBN-10 `"1234567890"`, publisher `"P"`, publish
date `"2000"` and no author. -/
def c3_book : OpenLibrary.Book :=
  { title := .str "T"
    publisher := .str "P"
    publish_date := .str "2000"
    identifiers := .obj [("isbn_10", .arr [.str "1234567890"])] }

/-- The creation payload expected for `c3_book` in debug mode. -/
def c3_payload : List (String × Json) :=
  [("title", .str "T"),
   ("author_name", .str ""),
   ("author_key", .str "__new__"),
   ("publish_date", .str "2000"),
   ("publisher", .str "P"),
   ("id_name", .str "isbn_10"),
   ("id_value", .str "1234567890"),
   ("_save", .str "")]

/-- A Book carrying only an LCCN identifier. -/
def c4_lccn_book : OpenLibrary.Book :=
  { title := .str "L"
    identifiers := .obj [("lccn", .arr [.str "55011234"])] }

/-- A Book whose `isbn_10` key is present but maps to a list whose first
element is the falsy empty string. -/
def c10_falsy_book : OpenLibrary.Book :=
  { identifiers := .obj [("isbn_10", .arr [.str ""])] }

/-- A Book whose `isbn_10` key is present but maps to an empty list. -/
def c10_empty_list_book : OpenLibrary.Book :=
  { identifiers := .obj [("isbn_10", .arr [])] }

/-- An operation that fails on attempts 0-3 and succeeds on attempt 4. -/
def c5_op (i : Nat) : Except String Nat :=
  if i < 4 then .error "connection reset" else .ok 7

/-- A search document input with mismatched author name/key list lengths. -/
def c7_doc : Results.DocInput :=
  { key := "/works/OL1W"
    author_name := some ["A", "B"]
    author_key := some ["K1"] }

/-- Claim C1.  The spec (and the function's own docstring) say
`get_matching_authors_olid` returns an author id only when exactly one
candidate's normalized name equals the normalized query, and `None` when two
candidates both match exactly.  The code instead returns the first exact
match: on query `"A"` with two candidates both named `"A"`, it returns
`OL1A` rather than `None`. -/
theorem claim_C1_two_exact_matches_returns_first :
    OpenLibrary.get_matching_authors_olid "A"
      [{ name := "A", key := "/authors/OL1A" }, { name := "A", key := "/authors/OL2A" }]
      = some "OL1A" := by
  rfl

/-- Claim C2, counterexample.  On the claim's stated response body — whose
edition object has no `identifiers` field — `get_book_by_isbn` does not
return a Book at all: `edition['identifiers']['olid'] = ...` raises
`KeyError`. -/
theorem claim_C2_counterexample :
    OpenLibrary.get_book_by_isbn "123" (some c2_body) = .error "KeyError" := by
  rfl

/-- Claim C2, amended.  Once the edition object also carries an
`identifiers` dict (as real `jscmd=data` responses do), `get_book_by_isbn`
returns a Book whose identifier mapping contains `olid: ["OL1M"]`, whose
authors are `[Author(name="A", olid="OL2A")]`, and whose title `"X"` passes
through unchanged. -/
theorem claim_C2_amended :
    OpenLibrary.get_book_by_isbn "123" (some c2_body_with_identifiers)
      = .ok (some c2_expected_book) ∧
    c2_expected_book.identifiers = Json.obj [("olid", Json.arr [Json.str "OL1M"])] ∧
    c2_expected_book.authors = [{ name := "A", olid := some "OL2A" }] ∧
    c2_expected_book.title = Json.str "X" := by
  refine ⟨?_, rfl, rfl, rfl⟩
  rfl

/-- Claim C9.  `Results(start, num_found, docs=None)` — the default used when
a parsed search response lacks a `docs` field — raises `TypeError` from
iterating `None`, rather than producing a `Results` with an empty document
list. -/
theorem claim_C9_results_none_docs_raises :
    ∀ start num_found : Json, Results.init start num_found none = .error "TypeError" := by
  intro start num_found
  rfl

/-- Claim C3.  With `debug=True`, `create_book` never reaches the POST to the
creation endpoint (whatever the book, candidate list, or response URL), and
on the stated Book — title `"T"`, ISBN-10 `"1234567890"`, publisher `"P"`,
publish date `"2000"`, no author — it returns exactly the assembled payload
`{title:"T", author_name:"", author_key:"__new__", publish_date:"2000",
publisher:"P", id_name:"isbn_10", id_value:"1234567890", _save:""}`. -/
theorem _create_book_true_no_post {t an ak pd pub : Json} {idn : String} {idv : Json}
    {url : String} :
    OpenLibrary.madeNetworkPost (OpenLibrary._create_book t an ak pd pub idn idv url true)
      = false := by
  unfold OpenLibrary._create_book
  cases h : OpenLibrary.VALID_IDS.contains idn <;> rfl

theorem claim_C3_debug_returns_payload :
    (∀ (book : OpenLibrary.Book) (candidates : List OpenLibrary.AuthorRecord)
        (post_response_url : String),
      OpenLibrary.madeNetworkPost
        (OpenLibrary.create_book book candidates post_response_url true) = false) ∧
    OpenLibrary.create_book c3_book [] "" true = .ok (.payload c3_payload) := by
  constructor
  · intro book candidates post_response_url
    unfold OpenLibrary.create_book
    cases OpenLibrary.get_primary_identifier book with
    | error e => rfl
    | ok kv =>
      obtain ⟨k, v⟩ := kv
      exact _create_book_true_no_post
  · rfl

theorem scan_cons_error {k : String} {ks : List String} {ids : Json} {e : String}
    (h : pyContains ids k = .error e) :
    OpenLibrary.primary_id_scan (k :: ks) ids = .error e := by
  simp [OpenLibrary.primary_id_scan, h]

theorem scan_cons_false {k : String} {ks : List String} {ids : Json}
    (h : pyContains ids k = .ok false) :
    OpenLibrary.primary_id_scan (k :: ks) ids = OpenLibrary.primary_id_scan ks ids := by
  simp [OpenLibrary.primary_id_scan, h]

theorem scan_cons_true {k : String} {ks : List String} {ids : Json}
    (h : pyContains ids k = .ok true) :
    OpenLibrary.primary_id_scan (k :: ks) ids =
      match pyGetItem ids k with
      | .error e => .error e
      | .ok v =>
        match index0 v with
        | .error e => .error e
        | .ok x => .ok (some (k, x)) := by
  simp [OpenLibrary.primary_id_scan, h]

theorem valid_ids_eq : OpenLibrary.VALID_IDS = "isbn_10" :: "isbn_13" :: "lccn" :: [] := rfl

/-- Claim C4.  (a) A Book none of whose identifier kinds `isbn_10`, `isbn_13`,
`lccn` is present makes `create_book` fail with the `ValueError` (before any
network activity — no POST is recorded in the result); (b) whenever a primary
identifier is chosen, its kind is the first of `isbn_10`, `isbn_13`, `lccn`
present in the Book's identifier mapping; (c) a Book carrying only an LCCN
succeeds, with `lccn` as the chosen kind. -/
theorem claim_C4_primary_identifier_order :
    (∀ (book : OpenLibrary.Book) (candidates : List OpenLibrary.AuthorRecord)
        (url : String) (debug : Bool),
      pyContains book.identifiers "isbn_10" = .ok false →
      pyContains book.identifiers "isbn_13" = .ok false →
      pyContains book.identifiers "lccn" = .ok false →
      OpenLibrary.create_book book candidates url debug
        = .error "ValueError: ISBN10/13 or LCCN required") ∧
    (∀ (book : OpenLibrary.Book) (k : String) (v : Json),
      OpenLibrary.get_primary_identifier book = .ok (k, v) →
      (k = "isbn_10" ∧ pyContains book.identifiers "isbn_10" = .ok true) ∨
      (k = "isbn_13" ∧ pyContains book.identifiers "isbn_10" = .ok false ∧
        pyContains book.identifiers "isbn_13" = .ok true) ∨
      (k = "lccn" ∧ pyContains book.identifiers "isbn_10" = .ok false ∧
        pyContains book.identifiers "isbn_13" = .ok false ∧
        pyContains book.identifiers "lccn" = .ok true)) ∧
    (OpenLibrary.get_primary_identifier c4_lccn_book = .ok ("lccn", .str "55011234") ∧
      OpenLibrary.create_book c4_lccn_book [] "" true
        = .ok (.payload
            [("title", .str "L"),
             ("author_name", .str ""),
             ("author_key", .str "__new__"),
             ("publish_date", Json.null),
             ("publisher", Json.null),
             ("id_name", .str "lccn"),
             ("id_value", .str "55011234"),
             ("_save", .str "")])) := by
  refine ⟨?_, ?_, by constructor <;> rfl⟩
  · intro book candidates url debug h1 h2 h3
    have hscan : OpenLibrary.primary_id_scan OpenLibrary.VALID_IDS book.identifiers
        = .ok none := by
      rw [valid_ids_eq, scan_cons_false h1, scan_cons_false h2, scan_cons_false h3]
      rfl
    have hg : OpenLibrary.get_primary_identifier book
        = .error "ValueError: ISBN10/13 or LCCN required" := by
      unfold OpenLibrary.get_primary_identifier
      rw [hscan]
    unfold OpenLibrary.create_book
    rw [hg]
  · intro book k v h
    unfold OpenLibrary.get_primary_identifier at h
    rw [valid_ids_eq] at h
    cases h1 : pyContains book.identifiers "isbn_10" with
    | error e => rw [scan_cons_error h1] at h; exact absurd h (by simp)
    | ok b1 =>
      cases b1 with
      | true =>
        rw [scan_cons_true h1] at h
        cases h2 : pyGetItem book.identifiers "isbn_10" with
        | error e => simp [h2] at h
        | ok v1 =>
          simp only [h2] at h
          cases h3 : index0 v1 with
          | error e => simp [h3] at h
          | ok x =>
            simp only [h3] at h
            cases h4 : pyTruthy x with
            | false => simp [h4] at h
            | true =>
              simp only [h4, if_true] at h
              simp only [Except.ok.injEq, Prod.mk.injEq] at h
              exact Or.inl ⟨h.1.symm, rfl⟩
      | false =>
        rw [scan_cons_false h1] at h
        cases h2 : pyContains book.identifiers "isbn_13" with
        | error e => rw [scan_cons_error h2] at h; exact absurd h (by simp)
        | ok b2 =>
          cases b2 with
          | true =>
            rw [scan_cons_true h2] at h
            cases h3 : pyGetItem book.identifiers "isbn_13" with
            | error e => simp [h3] at h
            | ok v1 =>
              simp only [h3] at h
              cases h4 : index0 v1 with
              | error e => simp [h4] at h
              | ok x =>
                simp only [h4] at h
                cases h5 : pyTruthy x with
                | false => simp [h5] at h
                | true =>
                  simp only [h5, if_true] at h
                  simp only [Except.ok.injEq, Prod.mk.injEq] at h
                  exact Or.inr (Or.inl ⟨h.1.symm, rfl, rfl⟩)
          | false =>
            rw [scan_cons_false h2] at h
            cases h3 : pyContains book.identifiers "lccn" with
            | error e => rw [scan_cons_error h3] at h; exact absurd h (by simp)
            | ok b3 =>
              cases b3 with
              | true =>
                rw [scan_cons_true h3] at h
                cases h4 : pyGetItem book.identifiers "lccn" with
                | error e => simp [h4] at h
                | ok v1 =>
                  simp only [h4] at h
                  cases h5 : index0 v1 with
                  | error e => simp [h5] at h
                  | ok x =>
                    simp only [h5] at h
                    cases h6 : pyTruthy x with
                    | false => simp [h6] at h
                    | true =>
                      simp only [h6, if_true] at h
                      simp only [Except.ok.injEq, Prod.mk.injEq] at h
                      exact Or.inr (Or.inr ⟨h.1.symm, rfl, rfl, rfl⟩)
              | false =>
                rw [scan_cons_false h3] at h
                simp [OpenLibrary.primary_id_scan] at h

theorem claim_C4_witness :
    OpenLibrary.create_book { identifiers := Json.obj [] } [] "" false
      = .error "ValueError: ISBN10/13 or LCCN required" :=
  claim_C4_primary_identifier_order.1 { identifiers := Json.obj [] } [] "" false rfl rfl rfl

theorem pyContains_error_kind {j : Json} {k e : String} (h : pyContains j k = .error e) :
    e = "TypeError" := by
  cases j <;> simp [pyContains] at h <;> exact h.symm

theorem pyGetItem_error_kind {j : Json} {k e : String} (h : pyGetItem j k = .error e) :
    e = "KeyError" ∨ e = "TypeError" := by
  cases j with
  | obj l =>
    cases hl : lookupKey l k with
    | some v => simp [pyGetItem, hl] at h
    | none => simp [pyGetItem, hl] at h; exact Or.inl h.symm
  | str s => simp [pyGetItem] at h; exact Or.inr h.symm
  | num n => simp [pyGetItem] at h; exact Or.inr h.symm
  | bool b => simp [pyGetItem] at h; exact Or.inr h.symm
  | null => simp [pyGetItem] at h; exact Or.inr h.symm
  | arr l => simp [pyGetItem] at h; exact Or.inr h.symm

theorem index0_error_kind {v : Json} {e : String} (h : index0 v = .error e) :
    e = "IndexError" ∨ e = "KeyError" ∨ e = "TypeError" := by
  cases v with
  | arr l =>
    cases l with
    | nil => simp [index0] at h; exact Or.inl h.symm
    | cons x xs => simp [index0] at h
  | str s =>
    cases s with
    | mk data =>
      cases data with
      | nil => simp [index0] at h; exact Or.inl h.symm
      | cons c cs => simp [index0] at h
  | obj l => simp [index0] at h; exact Or.inr (Or.inl h.symm)
  | num n => simp [index0] at h; exact Or.inr (Or.inr h.symm)
  | bool b => simp [index0] at h; exact Or.inr (Or.inr h.symm)
  | null => simp [index0] at h; exact Or.inr (Or.inr h.symm)

theorem scan_error_kind : ∀ (ks : List String) (ids : Json) (e : String),
    OpenLibrary.primary_id_scan ks ids = .error e →
    e = "TypeError" ∨ e = "KeyError" ∨ e = "IndexError" := by
  intro ks
  induction ks with
  | nil => intro ids e h; simp [OpenLibrary.primary_id_scan] at h
  | cons k ks ih =>
    intro ids e h
    cases h1 : pyContains ids k with
    | error e1 =>
      rw [scan_cons_error h1] at h
      injection h with h2
      exact Or.inl (h2 ▸ pyContains_error_kind h1)
    | ok b =>
      cases b with
      | true =>
        rw [scan_cons_true h1] at h
        cases h2 : pyGetItem ids k with
        | error e2 =>
          simp only [h2] at h
          injection h with h3
          rcases pyGetItem_error_kind h2 with h4 | h4
          · exact Or.inr (Or.inl (h3 ▸ h4))
          · exact Or.inl (h3 ▸ h4)
        | ok v =>
          simp only [h2] at h
          cases h3 : index0 v with
          | error e3 =>
            simp only [h3] at h
            injection h with h4
            rcases index0_error_kind h3 with h5 | h5 | h5
            · exact Or.inr (Or.inr (h4 ▸ h5))
            · exact Or.inr (Or.inl (h4 ▸ h5))
            · exact Or.inl (h4 ▸ h5)
          | ok x => simp [h3] at h
      | false =>
        rw [scan_cons_false h1] at h
        exact ih ids e h

theorem scan_ok_none : ∀ (ks : List String) (ids : Json),
    OpenLibrary.primary_id_scan ks ids = .ok none →
    ∀ k, k ∈ ks → pyContains ids k = .ok false := by
  intro ks
  induction ks with
  | nil => intro ids h k hk; exact absurd hk (List.not_mem_nil k)
  | cons k0 ks ih =>
    intro ids h k hk
    cases h1 : pyContains ids k0 with
    | error e1 => rw [scan_cons_error h1] at h; exact absurd h (by simp)
    | ok b =>
      cases b with
      | true =>
        rw [scan_cons_true h1] at h
        cases h2 : pyGetItem ids k0 with
        | error e2 => simp [h2] at h
        | ok v =>
          simp only [h2] at h
          cases h3 : index0 v with
          | error e3 => simp [h3] at h
          | ok x => simp [h3] at h
      | false =>
        rw [scan_cons_false h1] at h
        rcases List.mem_cons.mp hk with rfl | hk2
        · exact h1
        · exact ih ids h k hk2

/-- Claim C10, counterexample.  The claim says the `ValueError` path is
reached only when none of `isbn_10`, `isbn_13`, `lccn` is a key of the
mapping.  But a Book whose `isbn_10` key is present and maps to `[""]`
(a falsy first value) also reaches the `ValueError` — the guard
`if not (id_name and id_value)` tests the value's truthiness. -/
theorem claim_C10_counterexample :
    OpenLibrary.get_primary_identifier c10_falsy_book
      = .error "ValueError: ISBN10/13 or LCCN required" ∧
    pyContains c10_falsy_book.identifiers "isbn_10" = .ok true := by
  constructor <;> rfl

/-- Claim C10, amended.  If the first identifier kind found in the preference
order maps to an empty list, `create_book`'s identifier selection raises
`IndexError` (not the `ValueError`); and the `ValueError` path is reached
exactly when either no kind is a key of the mapping (in which case all three
membership tests are false) or the first kind found maps to a value whose
first element is falsy. -/
theorem claim_C10_empty_list_index_error :
    (∀ book : OpenLibrary.Book,
      pyContains book.identifiers "isbn_10" = .ok true →
      pyGetItem book.identifiers "isbn_10" = .ok (.arr []) →
      OpenLibrary.get_primary_identifier book = .error "IndexError") ∧
    (∀ book : OpenLibrary.Book,
      pyContains book.identifiers "isbn_10" = .ok false →
      pyContains book.identifiers "isbn_13" = .ok true →
      pyGetItem book.identifiers "isbn_13" = .ok (.arr []) →
      OpenLibrary.get_primary_identifier book = .error "IndexError") ∧
    (∀ book : OpenLibrary.Book,
      pyContains book.identifiers "isbn_10" = .ok false →
      pyContains book.identifiers "isbn_13" = .ok false →
      pyContains book.identifiers "lccn" = .ok true →
      pyGetItem book.identifiers "lccn" = .ok (.arr []) →
      OpenLibrary.get_primary_identifier book = .error "IndexError") ∧
    (∀ book : OpenLibrary.Book,
      OpenLibrary.get_primary_identifier book
        = .error "ValueError: ISBN10/13 or LCCN required" →
      (pyContains book.identifiers "isbn_10" = .ok false ∧
       pyContains book.identifiers "isbn_13" = .ok false ∧
       pyContains book.identifiers "lccn" = .ok false) ∨
      (∃ k x, OpenLibrary.primary_id_scan OpenLibrary.VALID_IDS book.identifiers
          = .ok (some (k, x)) ∧ pyTruthy x = false)) := by
  refine ⟨?_, ?_, ?_, ?_⟩
  · intro book h1 h2
    unfold OpenLibrary.get_primary_identifier
    rw [valid_ids_eq, scan_cons_true h1, h2]
    rfl
  · intro book h1 h2 h3
    unfold OpenLibrary.get_primary_identifier
    rw [valid_ids_eq, scan_cons_false h1, scan_cons_true h2, h3]
    rfl
  · intro book h1 h2 h3 h4
    unfold OpenLibrary.get_primary_identifier
    rw [valid_ids_eq, scan_cons_false h1, scan_cons_false h2, scan_cons_true h3, h4]
    rfl
  · intro book h
    unfold OpenLibrary.get_primary_identifier at h
    cases hs : OpenLibrary.primary_id_scan OpenLibrary.VALID_IDS book.identifiers with
    | error e =>
      rw [hs] at h
      injection h with h2
      rcases scan_error_kind _ _ _ hs with rfl | rfl | rfl <;> exact absurd h2 (by decide)
    | ok o =>
      cases o with
      | none =>
        have hall := scan_ok_none _ _ hs
        refine Or.inl ⟨hall _ ?_, hall _ ?_, hall _ ?_⟩ <;> rw [valid_ids_eq] <;> simp
      | some kx =>
        obtain ⟨k, x⟩ := kx
        simp only [hs] at h
        cases h4 : pyTruthy x with
        | true => simp [h4] at h
        | false => exact Or.inr ⟨k, x, rfl, h4⟩

theorem claim_C10_witness :
    OpenLibrary.get_primary_identifier c10_empty_list_book = .error "IndexError" :=
  claim_C10_empty_list_index_error.1 c10_empty_list_book rfl rfl

/-- Claim C8, counterexample.  A response body of `null` is parseable JSON
that lacks the `ISBN:123` key, yet both lookups raise `TypeError` (Python
`'ISBN:123' in None`) instead of returning `None` — only the JSON-decoding
`ValueError` is caught in the source. -/
theorem claim_C8_counterexample :
    OpenLibrary.get_book_by_isbn "123" (some Json.null) = .error "TypeError" ∧
    OpenLibrary.get_olid_by_isbn "123" (some Json.null) = .error "TypeError" := by
  constructor <;> rfl

/-- Claim C8, amended.  For every isbn, `get_book_by_isbn` and
`get_olid_by_isbn` return `None` without raising when the response body is
not parseable JSON, and likewise when the parsed JSON is a container whose
membership test for `ISBN:<isbn>` is false; a non-container body (`null`,
number, boolean) instead raises `TypeError` from the membership test. -/
theorem claim_C8_missing_key_returns_none :
    (∀ isbn : String,
      OpenLibrary.get_book_by_isbn isbn none = .ok none ∧
      OpenLibrary.get_olid_by_isbn isbn none = .ok none) ∧
    (∀ (isbn : String) (body : Json),
      pyContains body ("ISBN:" ++ isbn) = .ok false →
      OpenLibrary.get_book_by_isbn isbn (some body) = .ok none ∧
      OpenLibrary.get_olid_by_isbn isbn (some body) = .ok none) := by
  constructor
  · intro isbn
    constructor <;> rfl
  · intro isbn body h
    constructor
    · unfold OpenLibrary.get_book_by_isbn
      dsimp only
      rw [h]
    · unfold OpenLibrary.get_olid_by_isbn
      dsimp only
      rw [h]

theorem claim_C8_witness :
    OpenLibrary.get_book_by_isbn "123" (some (Json.obj [])) = .ok none ∧
    OpenLibrary.get_olid_by_isbn "123" (some (Json.obj [])) = .ok none :=
  claim_C8_missing_key_returns_none.2 "123" (Json.obj []) rfl

theorem retryRun_invocations_le {E A : Type} (op : Nat → Except E A) :
    ∀ (n i : Nat), (retryRun op i n).2.1 ≤ n := by
  intro n
  induction n with
  | zero => intro i; simp [retryRun]
  | succ n ih =>
    intro i
    cases hop : op i with
    | ok a => simp [retryRun, hop]
    | error e =>
      by_cases hn : n = 0
      · subst hn; simp [retryRun, hop]
      · simp only [retryRun, hop, hn, if_false]
        have := ih (i + 1)
        show (retryRun op (i + 1) n).2.1 + 1 ≤ n + 1
        omega

/-- Claim C5.  Under the configured bound of `max_tries = 5` total attempts:
an operation that fails on its first four attempts and succeeds on the fifth
makes the overall call succeed with the give-up callback never invoked; an
operation that always fails makes the call propagate the fifth (final)
attempt's error with the callback invoked exactly once; and the operation is
never invoked more than the allowed number of attempts. -/
theorem claim_C5_retry_policy :
    (∀ (E A : Type) (op : Nat → Except E A) (a : A),
      (∀ i, i < 4 → ∃ e, op i = .error e) →
      op 4 = .ok a →
      retry OpenLibrary.BACKOFF_MAX_TRIES op = (some (.ok a), 5, 0)) ∧
    (∀ (E A : Type) (op : Nat → Except E A),
      (∀ i, ∃ e, op i = .error e) →
      ∃ e, op 4 = .error e ∧
        retry OpenLibrary.BACKOFF_MAX_TRIES op = (some (.error e), 5, 1)) ∧
    (∀ (E A : Type) (op : Nat → Except E A) (n : Nat),
      (retry n op).2.1 ≤ n) := by
  refine ⟨?_, ?_, ?_⟩
  · intro E A op a hf hok
    obtain ⟨e0, h0⟩ := hf 0 (by omega)
    obtain ⟨e1, h1⟩ := hf 1 (by omega)
    obtain ⟨e2, h2⟩ := hf 2 (by omega)
    obtain ⟨e3, h3⟩ := hf 3 (by omega)
    simp [retry, OpenLibrary.BACKOFF_MAX_TRIES, retryRun, h0, h1, h2, h3, hok]
  · intro E A op hf
    obtain ⟨e0, h0⟩ := hf 0
    obtain ⟨e1, h1⟩ := hf 1
    obtain ⟨e2, h2⟩ := hf 2
    obtain ⟨e3, h3⟩ := hf 3
    obtain ⟨e4, h4⟩ := hf 4
    refine ⟨e4, h4, ?_⟩
    simp [retry, OpenLibrary.BACKOFF_MAX_TRIES, retryRun, h0, h1, h2, h3, h4]
  · intro E A op n
    exact retryRun_invocations_le op n 0

theorem claim_C5_witness :
    retry OpenLibrary.BACKOFF_MAX_TRIES c5_op = (some (.ok 7), 5, 0) :=
  claim_C5_retry_policy.1 String Nat c5_op 7
    (fun i hi => ⟨"connection reset", by simp [c5_op, hi]⟩) (by rfl)

theorem zipWith_get?_both {α β γ : Type} (f : α → β → γ) :
    ∀ (l1 : List α) (l2 : List β) (i : Nat) (a : α) (b : β),
      l1.get? i = some a → l2.get? i = some b →
      (List.zipWith f l1 l2).get? i = some (f a b) := by
  intro l1
  induction l1 with
  | nil => intro l2 i a b h1 h2; simp at h1
  | cons x xs ih =>
    intro l2 i a b h1 h2
    cases l2 with
    | nil => simp at h2
    | cons y ys =>
      cases i with
      | zero =>
        simp only [List.get?] at h1 h2
        injection h1 with h1
        injection h2 with h2
        subst h1; subst h2
        rfl
      | succ i =>
        simp only [List.get?] at h1 h2
        simp only [List.zipWith, List.get?]
        exact ih ys i a b h1 h2

/-- Claim C7.  A `Results.Document`'s author list is the pairwise zip of the
`author_name` and `author_key` lists truncated to the shorter length; in
particular the mismatched input `author_name=["A","B"]`, `author_key=["K1"]`
yields exactly one Author, named `"A"` with olid `"K1"`. -/
theorem claim_C7_zip_truncation :
    (∀ d : Results.DocInput,
      (Results.mkDocument d).authors.length
        = min (d.author_name.getD []).length (d.author_key.getD []).length ∧
      (∀ (i : Nat) (n k : String),
        (d.author_name.getD []).get? i = some n →
        (d.author_key.getD []).get? i = some k →
        (Results.mkDocument d).authors.get? i
          = some { name := n, olid := some k })) ∧
    (Results.mkDocument c7_doc).authors = [{ name := "A", olid := some "K1" }] := by
  refine ⟨?_, by rfl⟩
  intro d
  constructor
  · simp [Results.mkDocument, List.length_zipWith]
  · intro i n k h1 h2
    simp only [Results.mkDocument]
    exact zipWith_get?_both _ _ _ _ _ _ h1 h2

theorem claim_C7_witness :
    (Results.mkDocument c7_doc).authors.get? 0
      = some { name := "A", olid := some "K1" } :=
  (claim_C7_zip_truncation.1 c7_doc).2 0 "A" "K1" rfl rfl

theorem leadsWith_iff : ∀ (pat s : List Char),
    isInfixChars.leadsWith pat s = true ↔ ∃ t, s = pat ++ t := by
  intro pat
  induction pat with
  | nil =>
    intro s
    simp [isInfixChars.leadsWith]
  | cons a as ih =>
    intro s
    cases s with
    | nil =>
      simp only [isInfixChars.leadsWith]
      constructor
      · intro h; exact absurd h (by simp)
      · rintro ⟨t, ht⟩; exact absurd ht (by simp)
    | cons b bs =>
      simp only [isInfixChars.leadsWith, Bool.and_eq_true, beq_iff_eq]
      constructor
      · rintro ⟨rfl, h⟩
        obtain ⟨t, rfl⟩ := (ih bs).mp h
        exact ⟨t, rfl⟩
      · rintro ⟨t, ht⟩
        injection ht with hb hbs
        exact ⟨hb.symm, (ih bs).mpr ⟨t, hbs⟩⟩

theorem takeWhile_all {p : Char → Bool} : ∀ l : List Char, (l.takeWhile p).all p = true := by
  intro l
  induction l with
  | nil => rfl
  | cons x xs ih =>
    cases hp : p x with
    | true => simp [List.takeWhile, hp, ih]
    | false => simp [List.takeWhile, hp]

theorem dropWhile_head_false {p : Char → Bool} : ∀ (l : List Char) (c : Char) (cs : List Char),
    l.dropWhile p = c :: cs → p c = false := by
  intro l
  induction l with
  | nil => intro c cs h; simp at h
  | cons x xs ih =>
    intro c cs h
    cases hp : p x with
    | true =>
      rw [List.dropWhile_cons, if_pos hp] at h
      exact ih c cs h
    | false =>
      rw [List.dropWhile_cons, if_neg (by simp [hp])] at h
      injection h with h1 h2
      subst h1
      exact hp

theorem matchIdAt_some {pat s r : List Char} (h : matchIdAt pat s = some r) :
    r ≠ [] ∧ r.all isAlnumChar = true ∧
    ∃ post, s = pat ++ r ++ post ∧ ∀ c cs, post = c :: cs → isAlnumChar c = false := by
  unfold matchIdAt at h
  by_cases hl : isInfixChars.leadsWith pat s = true
  · rw [if_pos hl] at h
    obtain ⟨t, rfl⟩ := (leadsWith_iff pat s).mp hl
    rw [List.drop_left] at h
    by_cases hrun : (t.takeWhile isAlnumChar).isEmpty
    · rw [if_pos hrun] at h; exact absurd h (by simp)
    · rw [if_neg hrun] at h
      injection h with h
      subst h
      refine ⟨?_, takeWhile_all t, t.dropWhile isAlnumChar, ?_, ?_⟩
      · intro hnil; rw [hnil] at hrun; exact hrun rfl
      · rw [List.append_assoc, List.takeWhile_append_dropWhile]
      · intro c cs hpost; exact dropWhile_head_false t c cs hpost
  · rw [if_neg hl] at h; exact absurd h (by simp)

theorem matchIdAt_of_head_alnum {pat t : List Char} {c : Char} (hc : isAlnumChar c = true) :
    ∃ r, matchIdAt pat (pat ++ c :: t) = some r := by
  unfold matchIdAt
  have hl : isInfixChars.leadsWith pat (pat ++ c :: t) = true :=
    (leadsWith_iff _ _).mpr ⟨c :: t, rfl⟩
  rw [if_pos hl, List.drop_left]
  have htw : (c :: t).takeWhile isAlnumChar = c :: t.takeWhile isAlnumChar := by
    simp [List.takeWhile, hc]
  rw [htw]
  exact ⟨c :: t.takeWhile isAlnumChar, by simp⟩

theorem searchId_some {pat : List Char} : ∀ (l r : List Char), searchId pat l = some r →
    r ≠ [] ∧ r.all isAlnumChar = true ∧
    ∃ pre post, l = pre ++ pat ++ r ++ post ∧
      ∀ c cs, post = c :: cs → isAlnumChar c = false := by
  intro l
  induction l with
  | nil => intro r h; simp [searchId] at h
  | cons x xs ih =>
    intro r h
    cases hm : matchIdAt pat (x :: xs) with
    | some r2 =>
      simp only [searchId, hm] at h
      injection h with h
      subst h
      obtain ⟨hne, hall, post, heq, hpost⟩ := matchIdAt_some hm
      exact ⟨hne, hall, [], post, by simpa using heq, hpost⟩
    | none =>
      simp only [searchId, hm] at h
      obtain ⟨hne, hall, pre, post, heq, hpost⟩ := ih r h
      refine ⟨hne, hall, x :: pre, post, ?_, hpost⟩
      simp only [List.cons_append]
      exact congrArg (x :: ·) heq

theorem searchId_none {pat : List Char} : ∀ (l : List Char), searchId pat l = none →
    ∀ (pre : List Char) (c : Char) (post : List Char),
      l = pre ++ pat ++ c :: post → isAlnumChar c = false := by
  intro l
  induction l with
  | nil =>
    intro h pre c post heq
    exact absurd heq (by simp)
  | cons x xs ih =>
    intro h pre c post heq
    have hm : matchIdAt pat (x :: xs) = none := by
      cases hm2 : matchIdAt pat (x :: xs) with
      | some r => simp [searchId, hm2] at h
      | none => rfl
    have hrec : searchId pat xs = none := by
      simp only [searchId, hm] at h
      exact h
    cases pre with
    | nil =>
      simp only [List.nil_append] at heq
      cases hcv : isAlnumChar c with
      | false => rfl
      | true =>
        obtain ⟨r, hr⟩ := @matchIdAt_of_head_alnum pat post c hcv
        rw [← heq] at hr
        rw [hm] at hr
        exact absurd hr (by simp)
    | cons y pre2 =>
      simp only [List.cons_append] at heq
      injection heq with h1 h2
      exact ih hrec pre2 c post h2

/-- Claim C6.  For every URL string and (alphanumeric, as at every call site)
resource-type label: when the extractor returns an id, that id is a nonempty
alphanumeric run standing immediately after a `/<type>/` segment of the URL
and is maximal (the next character, if any, is not alphanumeric); when it
returns `none` — and it never raises — no `/<type>/` segment of the URL is
followed by an alphanumeric character.  The alphanumeric-label hypothesis
records that the embedding reads the interpolated `re` pattern literally,
which coincides with the source regex for such labels. -/
theorem claim_C6_extract_olid (url url_type : String)
    (_halnum : url_type.data.all isAlnumChar = true) :
    (∀ r : String, OpenLibrary._extract_olid_from_url url url_type = some r →
      r.data ≠ [] ∧ r.data.all isAlnumChar = true ∧
      ∃ pre post, url.data = pre ++ ('/' :: (url_type.data ++ ['/'])) ++ r.data ++ post ∧
        ∀ c cs, post = c :: cs → isAlnumChar c = false) ∧
    (OpenLibrary._extract_olid_from_url url url_type = none →
      ∀ (pre : List Char) (c : Char) (post : List Char),
        url.data = pre ++ ('/' :: (url_type.data ++ ['/'])) ++ c :: post →
        isAlnumChar c = false) := by
  constructor
  · intro r h
    unfold OpenLibrary._extract_olid_from_url at h
    cases hs : searchId ('/' :: (url_type.data ++ ['/'])) url.data with
    | none => rw [hs] at h; exact absurd h (by simp)
    | some cs =>
      rw [hs] at h
      simp only [Option.map] at h
      injection h with h
      subst h
      exact searchId_some url.data cs hs
  · intro h pre c post heq
    unfold OpenLibrary._extract_olid_from_url at h
    cases hs : searchId ('/' :: (url_type.data ++ ['/'])) url.data with
    | some cs => rw [hs] at h; exact absurd h (by simp)
    | none => exact searchId_none url.data hs pre c post heq

theorem claim_C6_witness :
    ("OL25943366M" : String).data ≠ [] ∧
    ("OL25943366M" : String).data.all isAlnumChar = true ∧
    ∃ pre post,
      ("https://openlibrary.org/books/OL25943366M" : String).data
        = pre ++ ('/' :: (("books" : String).data ++ ['/']))
            ++ ("OL25943366M" : String).data ++ post ∧
      ∀ c cs, post = c :: cs → isAlnumChar c = false :=
  (claim_C6_extract_olid "https://openlibrary.org/books/OL25943366M" "books"
    (by decide)).1 "OL25943366M" (by rfl)
